import Mathlib

/-!
Verification of the ride-hailing order lifecycle simulator
(`src/13.2/main.go`, second program in the file: `RideState`, `RideOrder`,
`transitions`, `CanTransition`, `Transition`, `SimulateDelay`, `SubmitRating`).

The Go code is embedded shallowly: the transition map becomes a total
function into `Option RideState`; the in-place mutation of `RideOrder.state`
becomes functional record update; the printed output becomes an explicit
trace of actions so that the order of state update versus effect emission
is observable.
-/

/-- The `RideState` string enumeration of the Go source (closed set). -/
inductive RideState where
  | StateIdle
  | StateCarSelected
  | StateOrderConfirmed
  | StateCarArrived
  | StateInTrip
  | StateTripCompleted
  | StateTripCancelled
deriving DecidableEq, Repr, Fintype

open RideState

/-- The string value of each `RideState` constant in the Go source. -/
def RideState.toStr : RideState → String
  | StateIdle => "Idle"
  | StateCarSelected => "CarSelected"
  | StateOrderConfirmed => "OrderConfirmed"
  | StateCarArrived => "CarArrived"
  | StateInTrip => "InTrip"
  | StateTripCompleted => "TripCompleted"
  | StateTripCancelled => "TripCancelled"

/-- The `RideEvent` string enumeration of the Go source (closed set). -/
inductive RideEvent where
  | EventSelectCar
  | EventConfirmOrder
  | EventCarArrived
  | EventStartTrip
  | EventEndTrip
  | EventCancelOrder
  | EventCarDelayed
  | EventPaymentSuccess
  | EventPaymentFailed
  | EventChangeCar
  | EventEmergencyCancel
deriving DecidableEq, Repr, Fintype

open RideEvent

/-- The string value of each `RideEvent` constant in the Go source. -/
def RideEvent.toStr : RideEvent → String
  | EventSelectCar => "selectCar"
  | EventConfirmOrder => "confirmOrder"
  | EventCarArrived => "carArrived"
  | EventStartTrip => "startTrip"
  | EventEndTrip => "endTrip"
  | EventCancelOrder => "cancelOrder"
  | EventCarDelayed => "carDelayed"
  | EventPaymentSuccess => "paymentSuccess"
  | EventPaymentFailed => "paymentFailed"
  | EventChangeCar => "changeCar"
  | EventEmergencyCancel => "emergencyCancel"

/-- The `RideOrder` struct of the Go source. Go's in-place mutation is
modelled by functional update of this record. -/
structure RideOrder where
  id : String
  state : RideState
  carID : String
  driver : String
  rating : Int
deriving DecidableEq, Repr

/-- The global `transitions` map of the Go source
(`map[RideState]map[RideEvent]RideState`). A missing entry is `none`;
`StateTripCancelled` maps to the empty inner map. -/
def transitions : RideState → RideEvent → Option RideState
  | StateIdle, EventSelectCar => some StateCarSelected
  | StateIdle, EventCancelOrder => some StateTripCancelled
  | StateCarSelected, EventConfirmOrder => some StateOrderConfirmed
  | StateCarSelected, EventChangeCar => some StateCarSelected
  | StateCarSelected, EventCancelOrder => some StateTripCancelled
  | StateOrderConfirmed, EventCarArrived => some StateCarArrived
  | StateOrderConfirmed, EventCancelOrder => some StateTripCancelled
  | StateOrderConfirmed, EventCarDelayed => some StateTripCancelled
  | StateCarArrived, EventStartTrip => some StateInTrip
  | StateCarArrived, EventCancelOrder => some StateTripCancelled
  | StateInTrip, EventEndTrip => some StateTripCompleted
  | StateInTrip, EventEmergencyCancel => some StateTripCancelled
  | StateTripCompleted, EventPaymentSuccess => some StateIdle
  | StateTripCompleted, EventPaymentFailed => some StateTripCompleted
  | _, _ => none

/-- `RideOrder.CanTransition`: the comma-ok map lookup
`_, ok := transitions[r.State][event]` of the Go source. -/
def RideOrder.CanTransition (r : RideOrder) (event : RideEvent) : Bool :=
  (transitions r.state event).isSome

/-- One observable action of `Transition`: a printed line, or the write to
`r.State`. Making the state write an element of the trace records where it
happens relative to the printed lines. -/
inductive TraceAction where
  | printLine (s : String)
  | setState (s : RideState)
deriving DecidableEq, Repr

/-- The message of `fmt.Errorf("invalid transition: %s -> %s", r.State, event)`. -/
def invalidTransitionMsg (s : RideState) (e : RideEvent) : String :=
  "invalid transition: " ++ s.toStr ++ " -> " ++ e.toStr

/-- The line of `fmt.Printf("Order %s: %s -> %s\n", r.ID, r.State, newState)`. -/
def transitionLogMsg (id : String) (from_ : RideState) (to_ : RideState) : String :=
  "Order " ++ id ++ ": " ++ from_.toStr ++ " -> " ++ to_.toStr

/-- The per-event message of the `switch event` at the end of
`RideOrder.Transition` in the Go source. The switch has no case for
`EventChangeCar` and no default, so a `changeCar` event prints nothing:
that is `none` here. -/
def effectMsg : RideEvent → Option String
  | EventSelectCar => some "Car selected."
  | EventConfirmOrder => some "Order confirmed. Car is on the way."
  | EventCarArrived => some "Car has arrived."
  | EventStartTrip => some "Trip started."
  | EventEndTrip => some "Trip completed. Payment pending."
  | EventCancelOrder => some "Order cancelled."
  | EventCarDelayed => some "Order cancelled."
  | EventEmergencyCancel => some "Order cancelled."
  | EventPaymentSuccess => some "Payment successful."
  | EventPaymentFailed => some "Payment failed. Please try again."
  | EventChangeCar => none

/-- Result of one `Transition` call: the order after the call (Go mutates
`r` in place), the returned error if any, and the trace of actions in the
order they happen. -/
structure TransitionResult where
  order : RideOrder
  error : Option String
  trace : List TraceAction
deriving DecidableEq, Repr

/-- `RideOrder.Transition` of the Go source. The guard
`if !r.CanTransition(event)` is exactly the test that the map lookup is
missing, so the function is written as one match on the lookup: on `none`
it returns the `invalid transition` error with `r` untouched; on
`some newState` it prints the transition log, sets `r.State = newState`,
runs the switch (which prints the event's effect message when the event has
a case), and returns `nil`. -/
def RideOrder.Transition (r : RideOrder) (event : RideEvent) : TransitionResult :=
  match transitions r.state event with
  | none =>
      { order := r
        error := some (invalidTransitionMsg r.state event)
        trace := [] }
  | some newState =>
      { order := { r with state := newState }
        error := none
        trace := [TraceAction.printLine (transitionLogMsg r.id r.state newState),
                  TraceAction.setState newState] ++
                 ((effectMsg event).map TraceAction.printLine).toList }

/-- `RideOrder.SimulateDelay` of the Go source, with the sleep made
explicit as two snapshots of the shared order: `r` is the order when the
watcher tests `r.State == StateOrderConfirmed` (before the sleep), and
`atFire` is the same order when the sleep ends and
`r.Transition(EventCarDelayed)` runs — the main flow may have advanced it
in between. When the initial test fails the watcher does nothing. -/
def RideOrder.SimulateDelay (r : RideOrder) (atFire : RideOrder) : TransitionResult :=
  if r.state = StateOrderConfirmed then
    atFire.Transition EventCarDelayed
  else
    { order := atFire, error := none, trace := [] }

/-- Result of one `SubmitRating` call. -/
structure RatingResult where
  order : RideOrder
  error : Option String
deriving DecidableEq, Repr

/-- The message of the not-eligible error in `RideOrder.SubmitRating`. -/
def ratingNotEligibleMsg : String :=
  "rating can only be submitted after the trip cycle is complete"

/-- The message of the out-of-range error in `RideOrder.SubmitRating`. -/
def ratingOutOfRangeMsg : String :=
  "rating must be between 1 and 5"

/-- `RideOrder.SubmitRating` of the Go source: reject unless
`r.State == StateIdle`; reject unless `1 <= rating <= 5`; otherwise set
`r.Rating = rating`. -/
def RideOrder.SubmitRating (r : RideOrder) (rating : Int) : RatingResult :=
  if r.state ≠ StateIdle then
    { order := r, error := some ratingNotEligibleMsg }
  else if rating < 1 ∨ rating > 5 then
    { order := r, error := some ratingOutOfRangeMsg }
  else
    { order := { r with rating := rating }, error := none }

/-- Folding a list of events through `Transition`, keeping the order that
each call leaves behind (a failed call leaves it unchanged). -/
def applyEvents (r : RideOrder) : List RideEvent → RideOrder
  | [] => r
  | e :: es => applyEvents (r.Transition e).order es

/-- A concrete order for instantiating the universally quantified theorems,
shaped like the `RIDE-001` order built in `main`. -/
def sampleOrder (s : RideState) : RideOrder :=
  { id := "RIDE-001", state := s, carID := "", driver := "", rating := 0 }

/-- The transition table exactly as the spec's section 4.1 lists it, as a
list of (from, event, to) triples; written from the spec's words to be
compared with `transitions`, which is written from the source. -/
def specTablePairs : List (RideState × RideEvent × RideState) :=
  [(StateIdle, EventSelectCar, StateCarSelected),
   (StateIdle, EventCancelOrder, StateTripCancelled),
   (StateCarSelected, EventConfirmOrder, StateOrderConfirmed),
   (StateCarSelected, EventChangeCar, StateCarSelected),
   (StateCarSelected, EventCancelOrder, StateTripCancelled),
   (StateOrderConfirmed, EventCarArrived, StateCarArrived),
   (StateOrderConfirmed, EventCancelOrder, StateTripCancelled),
   (StateOrderConfirmed, EventCarDelayed, StateTripCancelled),
   (StateCarArrived, EventStartTrip, StateInTrip),
   (StateCarArrived, EventCancelOrder, StateTripCancelled),
   (StateInTrip, EventEndTrip, StateTripCompleted),
   (StateInTrip, EventEmergencyCancel, StateTripCancelled),
   (StateTripCompleted, EventPaymentSuccess, StateIdle),
   (StateTripCompleted, EventPaymentFailed, StateTripCompleted)]

/-- The six-event happy path of the spec's full-cycle property. -/
def happyPath : List RideEvent :=
  [EventSelectCar, EventConfirmOrder, EventCarArrived,
   EventStartTrip, EventEndTrip, EventPaymentSuccess]

/-- C1: `CanTransition` is true iff the transition table defines a target
for the order's current state and the event; `Transition` succeeds (returns
no error) iff `CanTransition` is true; and when it fails it returns the
invalid-transition error and leaves the order entirely unchanged, all
fields included. -/
theorem c1_transition_guard (r : RideOrder) (e : RideEvent) :
    (r.CanTransition e = (transitions r.state e).isSome) ∧
    ((r.Transition e).error = none ↔ r.CanTransition e = true) ∧
    (r.CanTransition e = false →
      (r.Transition e).error = some (invalidTransitionMsg r.state e) ∧
      (r.Transition e).order = r) := by
  unfold RideOrder.CanTransition RideOrder.Transition
  cases h : transitions r.state e <;> simp [h]

/-- Witness for C1 at the terminal order `RIDE-001` in `TripCancelled` with
event `selectCar`: the call fails with the invalid-transition error and the
order is unchanged. -/
theorem c1_transition_guard_witness :
    ((sampleOrder StateTripCancelled).Transition EventSelectCar).error =
      some (invalidTransitionMsg StateTripCancelled EventSelectCar) ∧
    ((sampleOrder StateTripCancelled).Transition EventSelectCar).order =
      sampleOrder StateTripCancelled :=
  (c1_transition_guard (sampleOrder StateTripCancelled) EventSelectCar).2.2 (by decide)

/-- C2: the transition table defines exactly the pairs of the spec's
section 4.1 table: `transitions` yields `some t` on `(s, e)` precisely when
`(s, e, t)` appears in that table, so every pair absent from the table has
no defined target. -/
theorem c2_table_exact :
    ∀ s e t, transitions s e = some t ↔ (s, e, t) ∈ specTablePairs := by
  decide

/-- C3: `SubmitRating` fails with the not-eligible error unless the state
is `Idle`, fails with the out-of-range error unless `1 ≤ rating ≤ 5`,
otherwise sets the rating and succeeds; in every case the state is left
unchanged (and on failure the whole order is). -/
theorem c3_submit_rating_spec (r : RideOrder) (rating : Int) :
    (r.state ≠ StateIdle →
      (r.SubmitRating rating).error = some ratingNotEligibleMsg ∧
      (r.SubmitRating rating).order = r) ∧
    (r.state = StateIdle → rating < 1 ∨ 5 < rating →
      (r.SubmitRating rating).error = some ratingOutOfRangeMsg ∧
      (r.SubmitRating rating).order = r) ∧
    (r.state = StateIdle → 1 ≤ rating → rating ≤ 5 →
      (r.SubmitRating rating).error = none ∧
      (r.SubmitRating rating).order = { r with rating := rating }) ∧
    (r.SubmitRating rating).order.state = r.state := by
  unfold RideOrder.SubmitRating
  by_cases hs : r.state = StateIdle
  · by_cases hr : rating < 1 ∨ 5 < rating
    · simp [hs, hr]
      omega
    · simp [hs, hr]
  · simp [hs]

/-- Witness for C3 at `RIDE-001`: in `TripCompleted` a rating of 5 is
rejected as not eligible; in `Idle` a rating of 0 is rejected as out of
range and a rating of 5 is accepted, with the state still `Idle`. -/
theorem c3_submit_rating_spec_witness :
    ((sampleOrder StateTripCompleted).SubmitRating 5).error =
      some ratingNotEligibleMsg ∧
    ((sampleOrder StateIdle).SubmitRating 0).error = some ratingOutOfRangeMsg ∧
    ((sampleOrder StateIdle).SubmitRating 5).error = none ∧
    ((sampleOrder StateIdle).SubmitRating 5).order.state = StateIdle :=
  ⟨((c3_submit_rating_spec (sampleOrder StateTripCompleted) 5).1 (by decide)).1,
   ((c3_submit_rating_spec (sampleOrder StateIdle) 0).2.1 (by decide)
      (by norm_num)).1,
   ((c3_submit_rating_spec (sampleOrder StateIdle) 5).2.2.1 (by decide)
      (by norm_num) (by norm_num)).1,
   (c3_submit_rating_spec (sampleOrder StateIdle) 5).2.2.2⟩

/-- C4: the two self-loop transitions are legal genuine transitions, not
silent no-ops: `Transition` succeeds, the resulting state equals the source
state, and output is still emitted — `transition(CarSelected, ChangeCar)`
yields state `CarSelected` and the logged transition record
`Order id: CarSelected -> CarSelected` (the Go switch prints no extra
message for `changeCar`), and `transition(TripCompleted, PaymentFailed)`
yields `TripCompleted` and additionally its payment-failed effect line. -/
theorem c4_self_loops (r : RideOrder) :
    (r.state = StateCarSelected →
      (r.Transition EventChangeCar).error = none ∧
      (r.Transition EventChangeCar).order.state = StateCarSelected ∧
      (r.Transition EventChangeCar).trace ≠ [] ∧
      TraceAction.printLine (transitionLogMsg r.id StateCarSelected StateCarSelected)
        ∈ (r.Transition EventChangeCar).trace) ∧
    (r.state = StateTripCompleted →
      (r.Transition EventPaymentFailed).error = none ∧
      (r.Transition EventPaymentFailed).order.state = StateTripCompleted ∧
      (r.Transition EventPaymentFailed).trace ≠ [] ∧
      TraceAction.printLine "Payment failed. Please try again."
        ∈ (r.Transition EventPaymentFailed).trace) := by
  constructor
  · intro h
    simp [RideOrder.Transition, h, transitions, effectMsg]
  · intro h
    simp [RideOrder.Transition, h, transitions, effectMsg]

/-- Witness for C4 at `RIDE-001`: both self-loops applied concretely. -/
theorem c4_self_loops_witness :
    (((sampleOrder StateCarSelected).Transition EventChangeCar).error = none ∧
      ((sampleOrder StateCarSelected).Transition EventChangeCar).order.state =
        StateCarSelected ∧
      ((sampleOrder StateCarSelected).Transition EventChangeCar).trace ≠ [] ∧
      TraceAction.printLine
          (transitionLogMsg "RIDE-001" StateCarSelected StateCarSelected)
        ∈ ((sampleOrder StateCarSelected).Transition EventChangeCar).trace) ∧
    (((sampleOrder StateTripCompleted).Transition EventPaymentFailed).error = none ∧
      ((sampleOrder StateTripCompleted).Transition EventPaymentFailed).order.state =
        StateTripCompleted ∧
      ((sampleOrder StateTripCompleted).Transition EventPaymentFailed).trace ≠ [] ∧
      TraceAction.printLine "Payment failed. Please try again."
        ∈ ((sampleOrder StateTripCompleted).Transition EventPaymentFailed).trace) :=
  ⟨(c4_self_loops (sampleOrder StateCarSelected)).1 rfl,
   (c4_self_loops (sampleOrder StateTripCompleted)).2 rfl⟩

/-- C5 counterexample: the successful transition
`transition(CarSelected, ChangeCar)` emits only two actions — the
transition-log record and the state write — and no event-specific effect
message follows the state update, because the Go switch has no
`EventChangeCar` case; so not every successful transition ends by emitting
an event-specific effect message. -/
theorem c5_counterexample :
    ((sampleOrder StateCarSelected).Transition EventChangeCar).error = none ∧
    ((sampleOrder StateCarSelected).Transition EventChangeCar).trace =
      [TraceAction.printLine "Order RIDE-001: CarSelected -> CarSelected",
       TraceAction.setState StateCarSelected] ∧
    ((sampleOrder StateCarSelected).Transition EventChangeCar).trace.length = 2 := by
  refine ⟨rfl, rfl, rfl⟩

/-- C5 amended: every successful transition emits the transition-log record
(order id, from state, to state), then updates the state to the target,
then — whenever the event has an effect message, i.e. for every event
except ChangeCar — emits that event-specific message, with the per-event
contents as listed; a successful ChangeCar transition emits nothing after
the state write. -/
theorem c5_effect_order (r : RideOrder) (e : RideEvent) (t : RideState)
    (h : transitions r.state e = some t) :
    (r.Transition e).trace =
      [TraceAction.printLine (transitionLogMsg r.id r.state t),
       TraceAction.setState t] ++
      ((effectMsg e).map TraceAction.printLine).toList ∧
    effectMsg EventSelectCar = some "Car selected." ∧
    effectMsg EventConfirmOrder = some "Order confirmed. Car is on the way." ∧
    effectMsg EventCarArrived = some "Car has arrived." ∧
    effectMsg EventStartTrip = some "Trip started." ∧
    effectMsg EventEndTrip = some "Trip completed. Payment pending." ∧
    effectMsg EventCancelOrder = some "Order cancelled." ∧
    effectMsg EventCarDelayed = some "Order cancelled." ∧
    effectMsg EventEmergencyCancel = some "Order cancelled." ∧
    effectMsg EventPaymentSuccess = some "Payment successful." ∧
    effectMsg EventPaymentFailed = some "Payment failed. Please try again." ∧
    effectMsg EventChangeCar = none := by
  refine ⟨?_, rfl, rfl, rfl, rfl, rfl, rfl, rfl, rfl, rfl, rfl, rfl⟩
  simp [RideOrder.Transition, h]

/-- Witness for C5 amended at `RIDE-001` in `Idle` with `selectCar`: the
trace is the log record, the state write, then the effect message. -/
theorem c5_effect_order_witness :
    ((sampleOrder StateIdle).Transition EventSelectCar).trace =
      [TraceAction.printLine (transitionLogMsg "RIDE-001" StateIdle StateCarSelected),
       TraceAction.setState StateCarSelected] ++
      ((effectMsg EventSelectCar).map TraceAction.printLine).toList :=
  (c5_effect_order (sampleOrder StateIdle) EventSelectCar StateCarSelected rfl).1

/-- C6: `TripCancelled` is absorbing: every event has `CanTransition`
false, every `Transition` attempt fails leaving the order unchanged, and no
sequence of events applied through `Transition` ever changes the order. -/
theorem c6_cancelled_absorbing (r : RideOrder) (h : r.state = StateTripCancelled) :
    (∀ e, r.CanTransition e = false) ∧
    (∀ e, ((r.Transition e).error).isSome = true ∧ (r.Transition e).order = r) ∧
    (∀ evs : List RideEvent, applyEvents r evs = r) := by
  have htab : ∀ e, transitions r.state e = none := by
    intro e
    rw [h]
    cases e <;> rfl
  have hcan : ∀ e, r.CanTransition e = false := by
    intro e
    simp [RideOrder.CanTransition, htab e]
  have hfix : ∀ e, ((r.Transition e).error).isSome = true ∧ (r.Transition e).order = r := by
    intro e
    simp [RideOrder.Transition, htab e]
  refine ⟨hcan, hfix, ?_⟩
  intro evs
  induction evs with
  | nil => rfl
  | cons e es ih =>
      show applyEvents (r.Transition e).order es = r
      rw [(hfix e).2, ih]

/-- Witness for C6 at `RIDE-001` in `TripCancelled`: `cancelOrder` is not
accepted, a `selectCar` attempt leaves the order unchanged, and the whole
happy-path event list leaves it unchanged too. -/
theorem c6_cancelled_absorbing_witness :
    (sampleOrder StateTripCancelled).CanTransition EventCancelOrder = false ∧
    ((sampleOrder StateTripCancelled).Transition EventSelectCar).order =
      sampleOrder StateTripCancelled ∧
    applyEvents (sampleOrder StateTripCancelled) happyPath =
      sampleOrder StateTripCancelled :=
  ⟨(c6_cancelled_absorbing (sampleOrder StateTripCancelled) rfl).1 EventCancelOrder,
   ((c6_cancelled_absorbing (sampleOrder StateTripCancelled) rfl).2.1 EventSelectCar).2,
   (c6_cancelled_absorbing (sampleOrder StateTripCancelled) rfl).2.2 happyPath⟩

/-- Every call in a list of events succeeds when applied in sequence
through `Transition`, each from the order the previous call left. -/
def allSucceed (r : RideOrder) : List RideEvent → Bool
  | [] => true
  | e :: es => (r.Transition e).error.isNone && allSucceed (r.Transition e).order es

/-- C7: from any order in `Idle`, applying `selectCar, confirmOrder,
carArrived, startTrip, endTrip, paymentSuccess` in that order makes every
`Transition` call succeed and returns the order to state `Idle`: the
lifecycle is cyclic. -/
theorem c7_happy_cycle (r : RideOrder) (h : r.state = StateIdle) :
    allSucceed r happyPath = true ∧
    (applyEvents r happyPath).state = StateIdle := by
  obtain ⟨i, s, c, d, ra⟩ := r
  simp only at h
  subst h
  exact ⟨rfl, rfl⟩

/-- Witness for C7: the full cycle run on the concrete `RIDE-001` order. -/
theorem c7_happy_cycle_witness :
    allSucceed (sampleOrder StateIdle) happyPath = true ∧
    (applyEvents (sampleOrder StateIdle) happyPath).state = StateIdle :=
  c7_happy_cycle (sampleOrder StateIdle) rfl

/-- C8: the Delay Watcher's late `carDelayed` submission goes through
`Transition` and is judged against the order as it is at fire time: if the
order has advanced to `CarArrived` during the wait, the submission is
rejected with the invalid-transition error and the order stays exactly as
it was (state `CarArrived`, never `TripCancelled`); only if the order is
still in `OrderConfirmed` does it move to `TripCancelled`. -/
theorem c8_delay_race (sched atFire : RideOrder)
    (hs : sched.state = StateOrderConfirmed) :
    (atFire.state = StateCarArrived →
      (sched.SimulateDelay atFire).error =
        some (invalidTransitionMsg StateCarArrived EventCarDelayed) ∧
      (sched.SimulateDelay atFire).order = atFire ∧
      (sched.SimulateDelay atFire).order.state = StateCarArrived) ∧
    (atFire.state = StateOrderConfirmed →
      (sched.SimulateDelay atFire).error = none ∧
      (sched.SimulateDelay atFire).order.state = StateTripCancelled) := by
  unfold RideOrder.SimulateDelay
  rw [hs]
  simp only [if_pos]
  constructor
  · intro ha
    simp [RideOrder.Transition, ha, transitions]
  · intro ha
    simp [RideOrder.Transition, ha, transitions]

/-- Witness for C8: the watcher scheduled while `RIDE-001` was in
`OrderConfirmed` fires against the order after the main flow advanced it to
`CarArrived`: rejected, state stays `CarArrived`; fired with the order
still in `OrderConfirmed`, it cancels the trip. -/
theorem c8_delay_race_witness :
    ((sampleOrder StateOrderConfirmed).SimulateDelay
        (sampleOrder StateCarArrived)).order.state = StateCarArrived ∧
    ((sampleOrder StateOrderConfirmed).SimulateDelay
        (sampleOrder StateCarArrived)).error =
      some (invalidTransitionMsg StateCarArrived EventCarDelayed) ∧
    ((sampleOrder StateOrderConfirmed).SimulateDelay
        (sampleOrder StateOrderConfirmed)).order.state = StateTripCancelled :=
  ⟨((c8_delay_race (sampleOrder StateOrderConfirmed) (sampleOrder StateCarArrived)
      rfl).1 rfl).2.2,
   ((c8_delay_race (sampleOrder StateOrderConfirmed) (sampleOrder StateCarArrived)
      rfl).1 rfl).1,
   ((c8_delay_race (sampleOrder StateOrderConfirmed) (sampleOrder StateOrderConfirmed)
      rfl).2 rfl).2⟩

/-- C10: `SubmitRating` checks eligibility before the range: whenever the
state is not `Idle` it returns the not-eligible error — never the
out-of-range one — even for ratings outside `[1,5]`, and on every error
path the stored rating (indeed the whole order) is unchanged. -/
theorem c10_eligibility_first (r : RideOrder) (rating : Int) :
    (r.state ≠ StateIdle →
      (r.SubmitRating rating).error = some ratingNotEligibleMsg ∧
      (r.SubmitRating rating).error ≠ some ratingOutOfRangeMsg ∧
      (r.SubmitRating rating).order = r) ∧
    ((r.SubmitRating rating).error.isSome = true →
      (r.SubmitRating rating).order.rating = r.rating) := by
  have hmsg : ratingNotEligibleMsg ≠ ratingOutOfRangeMsg := by decide
  unfold RideOrder.SubmitRating
  by_cases hs : r.state = StateIdle
  · by_cases hr : rating < 1 ∨ 5 < rating
    · simp [hs, hr]
    · simp [hs, hr]
  · simp [hs, hmsg]

/-- Witness for C10 at `RIDE-001` in `InTrip` with the doubly invalid
rating 99: the error is the not-eligible one and the stored rating stays
at its initial value 0. -/
theorem c10_eligibility_first_witness :
    ((sampleOrder StateInTrip).SubmitRating 99).error = some ratingNotEligibleMsg ∧
    ((sampleOrder StateInTrip).SubmitRating 99).error ≠ some ratingOutOfRangeMsg ∧
    ((sampleOrder StateInTrip).SubmitRating 99).order.rating = 0 :=
  ⟨((c10_eligibility_first (sampleOrder StateInTrip) 99).1 (by decide)).1,
   ((c10_eligibility_first (sampleOrder StateInTrip) 99).1 (by decide)).2.1,
   (c10_eligibility_first (sampleOrder StateInTrip) 99).2 (by decide)⟩
